import Mathlib

/-!
Verification development for the vulkano documentation-site fragments and the
command-buffer recording layer their symbol names describe.

The two source artifacts are rustdoc-generated JavaScript files:
* `implementors/js` (the trait-implementors registry script), embedded below as
  `implementors` together with `runImplementorsScript`;
* `vulkano/command_buffer/outer/sidebar-items.js` (the sidebar navigation
  index), embedded below as `initSidebarItemsCalls`.

The command-buffer recording layer itself (builders, renderpass state machine,
`DynamicState`) ships no code in the artifact, so it is modelled from the
specification text; every such definition is marked `Modelled from the spec:`.
-/

/-- One `impl Trait for Type` entry of the implementors registry, as rendered
by rustdoc: the trait name and href, and the implementing type name and href. -/
structure ImplEntry where
  traitName : String
  traitHref : String
  implName : String
  implHref : String
  deriving DecidableEq

/-- The implementors map built by the registry script: JavaScript object keys
in insertion order, each bound to its list of impl entries.
the `shared_library` key is assigned the empty list first, then the five
`impl Error for ...` entries are assigned to the `vulkano` key. -/
def implementors : List (String × List ImplEntry) :=
  [("shared_library", []),
   ("vulkano",
     [{ traitName := "Error",
        traitHref := "https://doc.rust-lang.org/nightly/std/error/trait.Error.html",
        implName := "DeviceCreationError",
        implHref := "vulkano/device/enum.DeviceCreationError.html" },
      { traitName := "Error",
        traitHref := "https://doc.rust-lang.org/nightly/std/error/trait.Error.html",
        implName := "FramebufferCreationError",
        implHref := "vulkano/framebuffer/enum.FramebufferCreationError.html" },
      { traitName := "Error",
        traitHref := "https://doc.rust-lang.org/nightly/std/error/trait.Error.html",
        implName := "InstanceCreationError",
        implHref := "vulkano/instance/enum.InstanceCreationError.html" },
      { traitName := "Error",
        traitHref := "https://doc.rust-lang.org/nightly/std/error/trait.Error.html",
        implName := "AcquireError",
        implHref := "vulkano/swapchain/enum.AcquireError.html" },
      { traitName := "Error",
        traitHref := "https://doc.rust-lang.org/nightly/std/error/trait.Error.html",
        implName := "OomError",
        implHref := "vulkano/enum.OomError.html" }])]

/-- The `window` state the registry script observes and mutates: whether
`window.register_implementors` is defined, and the current value of
`window.pending_implementors`. -/
structure Window where
  register_implementors : Bool
  pending_implementors : Option (List (String × List ImplEntry))
  deriving DecidableEq

/-- Result of running the registry script: the final `window` state plus the
list of arguments passed to `window.register_implementors`, in call order. -/
structure ScriptOutcome where
  window : Window
  register_calls : List (List (String × List ImplEntry))
  deriving DecidableEq

/-- The tail of the registry script:
`if (window.register_implementors) { window.register_implementors(implementors); }
else { window.pending_implementors = implementors; }`. -/
def runImplementorsScript (w : Window) : ScriptOutcome :=
  if w.register_implementors then
    { window := w, register_calls := [implementors] }
  else
    { window := { w with pending_implementors := some implementors },
      register_calls := [] }

/-- One `["Name", "description"]` pair of the sidebar index. -/
structure SidebarItem where
  name : String
  description : String
  deriving DecidableEq

/-- The single argument object passed to `initSidebarItems` by
`sidebar-items.js`: its only key is `struct`, bound to the ten
name/description pairs, in source order. -/
def sidebarArg : List (String × List SidebarItem) :=
  [("struct",
    [{ name := "DynamicState",
       description := "The dynamic state to use for a draw command." },
     { name := "PrimaryCommandBuffer",
       description := "Represents a collection of commands to be executed by the GPU.A primary command buffer can contain any command." },
     { name := "PrimaryCommandBufferBuilder",
       description := "A prototype of a primary command buffer.Usage" },
     { name := "PrimaryCommandBufferBuilderInlineDraw",
       description := "Object that you obtain when calling `draw_inline` or `next_subpass_inline`." },
     { name := "PrimaryCommandBufferBuilderSecondaryDraw",
       description := "Object that you obtain when calling `draw_secondary` or `next_subpass_secondary`." },
     { name := "SecondaryComputeCommandBuffer",
       description := "Represents a collection of commands to be executed by the GPU.A secondary compute command buffer contains non-draw commands (like copy commands, compute shader execution, etc.). It can only be called outside of a renderpass." },
     { name := "SecondaryComputeCommandBufferBuilder",
       description := "A prototype of a secondary compute command buffer." },
     { name := "SecondaryGraphicsCommandBuffer",
       description := "Represents a collection of commands to be executed by the GPU.A secondary graphics command buffer contains draw commands and non-draw commands. Secondary command buffers can\x27t specify which framebuffer they are drawing to. Instead you must create a primary command buffer, specify a framebuffer, and then call the secondary command buffer.A secondary graphics command buffer can\x27t be called outside of a renderpass." },
     { name := "SecondaryGraphicsCommandBufferBuilder",
       description := "A prototype of a secondary compute command buffer." }])]

/-- The arguments of the `initSidebarItems` calls `sidebar-items.js` performs,
in order: the script body is exactly one call, with `sidebarArg`. -/
def initSidebarItemsCalls : List (List (String × List SidebarItem)) :=
  [sidebarArg]

/-- The names listed under the `struct` key of the sidebar argument. -/
def sidebarStructNames : List String :=
  ((sidebarArg.lookup "struct").getD []).map SidebarItem.name

/-- Modelled from the spec: the builder `kind` tag
`{Primary, SecondaryGraphics, SecondaryCompute}` of the command-buffer
recording layer (no recording-layer code ships in the artifact). -/
inductive BuilderKind where
  | Primary
  | SecondaryGraphics
  | SecondaryCompute
  deriving DecidableEq

/-- Modelled from the spec: the builder `renderpass state` tag
`{None, InsideInline, InsideSecondary}`. -/
inductive RenderpassState where
  | None
  | InsideInline
  | InsideSecondary
  deriving DecidableEq

/-- Modelled from the spec: the error taxonomy of the recording layer. -/
inductive BuildError where
  | IllegalCommand
  | ModeMismatch
  | NotInRenderPass
  | AlreadyInRenderPass
  | UnterminatedRenderPass
  deriving DecidableEq

/-- Modelled from the spec: `DynamicState`, a pure value holder with optional
fields for the viewport set, the scissor set and the line width; `none` means
"inherited from pipeline default". Resource values are opaque `Nat` handles. -/
structure DynamicState where
  viewports : Option Nat
  scissors : Option Nat
  lineWidth : Option Nat
  deriving DecidableEq

/-- Modelled from the spec: the all-unset `DynamicState`, every field
inherited from the pipeline default. -/
def DynamicState.unset : DynamicState :=
  { viewports := none, scissors := none, lineWidth := none }

/-- Modelled from the spec: `merge` combines a base `DynamicState` with
per-draw overrides; overrides take precedence field-by-field. -/
def DynamicState.merge (base override : DynamicState) : DynamicState :=
  { viewports := match override.viewports with
      | some v => some v
      | none => base.viewports,
    scissors := match override.scissors with
      | some s => some s
      | none => base.scissors,
    lineWidth := match override.lineWidth with
      | some w => some w
      | none => base.lineWidth }

/-- Modelled from the spec: a command passed to `append`, referencing opaque
resource handles. Inline draw commands carry a `DynamicState`; execute-secondary
commands reference a secondary command buffer; non-draw commands (copies,
compute dispatches) reference their buffers/images. -/
inductive Command where
  | draw (state : DynamicState) (resources : List Nat)
  | executeSecondary (resources : List Nat)
  | nonDraw (resources : List Nat)
  deriving DecidableEq

/-- Modelled from the spec: one entry of the recorded command
sequence; beginning/ending a renderpass and advancing a subpass are recorded
alongside appended commands. -/
inductive RecordedCommand where
  | beginRenderPass (framebuffer : Nat) (clearValues : List Nat) (secondaryContents : Bool)
  | nextSubpass (secondaryContents : Bool)
  | endRenderPass
  | cmd (c : Command)
  deriving DecidableEq

/-- Whether a recorded entry is a begin-renderpass or end-renderpass command. -/
def RecordedCommand.isRenderpassBoundary : RecordedCommand → Bool
  | .beginRenderPass _ _ _ => true
  | .endRenderPass => true
  | _ => false

/-- The opaque resource handles a recorded entry references. -/
def RecordedCommand.resources : RecordedCommand → List Nat
  | .beginRenderPass fb _ _ => [fb]
  | .nextSubpass _ => []
  | .endRenderPass => []
  | .cmd (.draw _ rs) => rs
  | .cmd (.executeSecondary rs) => rs
  | .cmd (.nonDraw rs) => rs

/-- Modelled from the spec: legality of an appended command in the current
`(kind, renderpassState)` pair of the builder. A primary builder accepts inline draws
only in `InsideInline`, execute-secondary commands in `InsideSecondary` (or
outside a renderpass, for secondary compute buffers), and non-draw commands
outside a renderpass; a secondary graphics builder accepts draw and non-draw
commands; a secondary compute builder accepts only non-draw commands. -/
def commandLegal (kind : BuilderKind) (rp : RenderpassState) : Command → Bool
  | .draw _ _ =>
    match kind, rp with
    | .Primary, .InsideInline => true
    | .SecondaryGraphics, _ => true
    | _, _ => false
  | .executeSecondary _ =>
    match kind, rp with
    | .Primary, .None => true
    | .Primary, .InsideSecondary => true
    | _, _ => false
  | .nonDraw _ =>
    match kind, rp with
    | .Primary, .None => true
    | .SecondaryGraphics, _ => true
    | .SecondaryCompute, _ => true
    | _, _ => false

/-- Modelled from the spec: `CommandBufferBuilder`, the single-owner mutable
accumulator — a kind tag, the recorded command sequence, the renderpass state
and the current subpass index. -/
structure CommandBufferBuilder where
  kind : BuilderKind
  commands : List RecordedCommand
  renderpassState : RenderpassState
  subpassIndex : Nat
  deriving DecidableEq

/-- Modelled from the spec: `CommandBuffer`, the immutable result of `build()`:
an ordered sequence of recorded commands (with the resource handles they
reference) tagged with the originating builder kind. -/
structure CommandBuffer where
  kind : BuilderKind
  commands : List RecordedCommand
  deriving DecidableEq

/-- The number of recorded commands of a finished command buffer. -/
def CommandBuffer.commandCount (cb : CommandBuffer) : Nat :=
  cb.commands.length

/-- The resource handles a finished command buffer references, in recording
order. -/
def CommandBuffer.resourceRefs (cb : CommandBuffer) : List Nat :=
  cb.commands.foldr (fun c acc => c.resources ++ acc) []

/-- Modelled from the spec: `new(kind)` — an empty builder in state `None`. -/
def CommandBufferBuilder.new (kind : BuilderKind) : CommandBufferBuilder :=
  { kind := kind, commands := [], renderpassState := .None, subpassIndex := 0 }

/-- Modelled from the spec: `append(command)` records the command, or fails
with `IllegalCommand` if it is not legal in the current
`(kind, renderpassState)` pair. -/
def CommandBufferBuilder.append (b : CommandBufferBuilder) (c : Command) :
    Except BuildError CommandBufferBuilder :=
  if commandLegal b.kind b.renderpassState c then
    .ok { b with commands := b.commands ++ [.cmd c] }
  else
    .error .IllegalCommand

/-- Modelled from the spec: `beginRenderPassInline(framebuffer, clearValues)`
transitions `None → InsideInline`; it fails with `AlreadyInRenderPass` when not
in `None`, and with `IllegalCommand` on a secondary builder (only primary
buffers may begin a renderpass). -/
def CommandBufferBuilder.beginRenderPassInline (b : CommandBufferBuilder)
    (framebuffer : Nat) (clearValues : List Nat) :
    Except BuildError CommandBufferBuilder :=
  if b.renderpassState ≠ .None then
    .error .AlreadyInRenderPass
  else if b.kind ≠ .Primary then
    .error .IllegalCommand
  else
    .ok { b with
      commands := b.commands ++ [.beginRenderPass framebuffer clearValues false],
      renderpassState := .InsideInline,
      subpassIndex := 0 }

/-- Modelled from the spec: `beginRenderPassSecondary(framebuffer, clearValues)`
transitions `None → InsideSecondary`; same failure cases as the inline form. -/
def CommandBufferBuilder.beginRenderPassSecondary (b : CommandBufferBuilder)
    (framebuffer : Nat) (clearValues : List Nat) :
    Except BuildError CommandBufferBuilder :=
  if b.renderpassState ≠ .None then
    .error .AlreadyInRenderPass
  else if b.kind ≠ .Primary then
    .error .IllegalCommand
  else
    .ok { b with
      commands := b.commands ++ [.beginRenderPass framebuffer clearValues true],
      renderpassState := .InsideSecondary,
      subpassIndex := 0 }

/-- Modelled from the spec: `nextSubpassInline` advances the subpass index and
preserves inline mode; it fails with `ModeMismatch` unless in `InsideInline`. -/
def CommandBufferBuilder.nextSubpassInline (b : CommandBufferBuilder) :
    Except BuildError CommandBufferBuilder :=
  if b.renderpassState = .InsideInline then
    .ok { b with
      commands := b.commands ++ [.nextSubpass false],
      subpassIndex := b.subpassIndex + 1 }
  else
    .error .ModeMismatch

/-- Modelled from the spec: `nextSubpassSecondary` advances the subpass index
and preserves secondary mode; it fails with `ModeMismatch` unless in
`InsideSecondary`. -/
def CommandBufferBuilder.nextSubpassSecondary (b : CommandBufferBuilder) :
    Except BuildError CommandBufferBuilder :=
  if b.renderpassState = .InsideSecondary then
    .ok { b with
      commands := b.commands ++ [.nextSubpass true],
      subpassIndex := b.subpassIndex + 1 }
  else
    .error .ModeMismatch

/-- Modelled from the spec: `endRenderPass` transitions back to `None`; it
fails with `NotInRenderPass` when already in `None`. -/
def CommandBufferBuilder.endRenderPass (b : CommandBufferBuilder) :
    Except BuildError CommandBufferBuilder :=
  if b.renderpassState = .None then
    .error .NotInRenderPass
  else
    .ok { b with
      commands := b.commands ++ [.endRenderPass],
      renderpassState := .None }

/-- Modelled from the spec: `build()` consumes the builder and returns the
immutable `CommandBuffer`; it fails with `UnterminatedRenderPass` when still
inside a renderpass. -/
def CommandBufferBuilder.build (b : CommandBufferBuilder) :
    Except BuildError CommandBuffer :=
  match b.renderpassState with
  | .None => .ok { kind := b.kind, commands := b.commands }
  | _ => .error .UnterminatedRenderPass

/-- One builder operation of the recording layer (everything except the
consuming `build()`). -/
inductive Op where
  | append (c : Command)
  | beginRenderPassInline (framebuffer : Nat) (clearValues : List Nat)
  | beginRenderPassSecondary (framebuffer : Nat) (clearValues : List Nat)
  | nextSubpassInline
  | nextSubpassSecondary
  | endRenderPass
  deriving DecidableEq

/-- Dispatch one operation to the corresponding builder method. -/
def applyOp (b : CommandBufferBuilder) : Op → Except BuildError CommandBufferBuilder
  | .append c => b.append c
  | .beginRenderPassInline fb cv => b.beginRenderPassInline fb cv
  | .beginRenderPassSecondary fb cv => b.beginRenderPassSecondary fb cv
  | .nextSubpassInline => b.nextSubpassInline
  | .nextSubpassSecondary => b.nextSubpassSecondary
  | .endRenderPass => b.endRenderPass

/-- The builder state after attempting one operation: a failed operation
aborts and leaves the builder in its prior state (no partial mutation). -/
def step (b : CommandBufferBuilder) (op : Op) : CommandBufferBuilder :=
  match applyOp b op with
  | .ok b2 => b2
  | .error _ => b

/-- Run a sequence of operations, each failed one leaving the builder
unchanged. -/
def runOps (b : CommandBufferBuilder) : List Op → CommandBufferBuilder
  | [] => b
  | op :: ops => runOps (step b op) ops

/-- Whether every operation of the sequence succeeds when applied in order. -/
def opsValid (b : CommandBufferBuilder) : List Op → Bool
  | [] => true
  | op :: ops =>
    match applyOp b op with
    | .ok b2 => opsValid b2 ops
    | .error _ => false

/-- The builder states reachable from `new(kind)` by successful operations. -/
inductive Reachable : CommandBufferBuilder → Prop where
  | new (kind : BuilderKind) : Reachable (CommandBufferBuilder.new kind)
  | step (b : CommandBufferBuilder) (op : Op) (b2 : CommandBufferBuilder) :
      Reachable b → applyOp b op = .ok b2 → Reachable b2

/-- Every successful operation preserves the builder kind. -/
theorem applyOp_kind (b : CommandBufferBuilder) (op : Op) (b2 : CommandBufferBuilder)
    (h : applyOp b op = .ok b2) : b2.kind = b.kind := by
  cases op <;>
    simp only [applyOp, CommandBufferBuilder.append,
      CommandBufferBuilder.beginRenderPassInline,
      CommandBufferBuilder.beginRenderPassSecondary,
      CommandBufferBuilder.nextSubpassInline,
      CommandBufferBuilder.nextSubpassSecondary,
      CommandBufferBuilder.endRenderPass] at h <;>
    (repeat' split at h) <;>
    (first
      | (cases h; rfl)
      | simp at h)

/-- Renderpass-state invariant of secondary builders: reachable non-primary
builders stay outside any renderpass and never record a begin/end-renderpass
entry. -/
theorem reachable_secondary_invariant (b : CommandBufferBuilder) (h : Reachable b) :
    b.kind ≠ .Primary →
      b.renderpassState = .None ∧
      b.commands.all (fun c => !c.isRenderpassBoundary) = true := by
  induction h with
  | new kind => exact fun _ => ⟨rfl, rfl⟩
  | step b op b2 hr hok ih =>
    intro hk2
    have hkind : b2.kind = b.kind := applyOp_kind b op b2 hok
    have hk : b.kind ≠ .Primary := fun hp => hk2 (by rw [hkind, hp])
    obtain ⟨hst, hcmds⟩ := ih hk
    cases op with
    | append c =>
      simp only [applyOp, CommandBufferBuilder.append] at hok
      split at hok
      · cases hok
        refine ⟨hst, ?_⟩
        rw [List.all_append, hcmds]
        rfl
      · simp at hok
    | beginRenderPassInline fb cv =>
      simp [applyOp, CommandBufferBuilder.beginRenderPassInline, hst, hk] at hok
    | beginRenderPassSecondary fb cv =>
      simp [applyOp, CommandBufferBuilder.beginRenderPassSecondary, hst, hk] at hok
    | nextSubpassInline =>
      simp [applyOp, CommandBufferBuilder.nextSubpassInline, hst] at hok
    | nextSubpassSecondary =>
      simp [applyOp, CommandBufferBuilder.nextSubpassSecondary, hst] at hok
    | endRenderPass =>
      simp [applyOp, CommandBufferBuilder.endRenderPass, hst] at hok

/-- Claim C1: the implementors registry script builds a map whose keys are
exactly `shared_library` (bound to the empty list) and `vulkano` (bound to the
std `Error` trait implementations for exactly the five enums
`DeviceCreationError`, `FramebufferCreationError`, `InstanceCreationError`,
`AcquireError`, `OomError`, in that order), and registers no implementation
for the recording-layer error kinds `IllegalCommand`, `ModeMismatch`,
`NotInRenderPass`, `UnterminatedRenderPass`. -/
theorem c1_implementors_registry :
    implementors.map Prod.fst = ["shared_library", "vulkano"] ∧
    implementors.lookup "shared_library" = some [] ∧
    (implementors.lookup "vulkano").map
        (fun l => l.map (fun e => (e.traitName, e.implName))) =
      some [("Error", "DeviceCreationError"), ("Error", "FramebufferCreationError"),
        ("Error", "InstanceCreationError"), ("Error", "AcquireError"),
        ("Error", "OomError")] ∧
    (implementors.all fun kv => kv.2.all fun e =>
      !(["IllegalCommand", "ModeMismatch", "NotInRenderPass",
         "UnterminatedRenderPass"].contains e.implName)) = true := by
  refine ⟨rfl, rfl, rfl, ?_⟩
  decide

/-- Claim C2: the sidebar index script calls `initSidebarItems` exactly once,
with an object whose only key is `struct`, and the struct list contains a
name/description entry for each of `PrimaryCommandBuffer`,
`PrimaryCommandBufferBuilder`, `SecondaryComputeCommandBuffer`,
`SecondaryGraphicsCommandBuffer` and `DynamicState`. -/
theorem c2_sidebar_struct_entries :
    initSidebarItemsCalls = [sidebarArg] ∧
    sidebarArg.map Prod.fst = ["struct"] ∧
    (["PrimaryCommandBuffer", "PrimaryCommandBufferBuilder",
      "SecondaryComputeCommandBuffer", "SecondaryGraphicsCommandBuffer",
      "DynamicState"].all fun n => sidebarStructNames.contains n) = true := by
  refine ⟨rfl, rfl, ?_⟩
  decide

/-- Claim C10: the registry script takes exactly one of two branches. When
`window.register_implementors` is defined it is invoked exactly once with the
implementors map and `window.pending_implementors` is left unchanged;
otherwise `window.pending_implementors` is set to the implementors map and no
registration call occurs — and the map passed or stored is `implementors` in
either branch. -/
theorem c10_registry_branching (w : Window) :
    (runImplementorsScript w).register_calls =
      (if w.register_implementors then [implementors] else []) ∧
    (runImplementorsScript w).window.pending_implementors =
      (if w.register_implementors then w.pending_implementors
       else some implementors) ∧
    (runImplementorsScript w).window.register_implementors =
      w.register_implementors := by
  cases h : w.register_implementors <;>
    simp [runImplementorsScript, h]

/-- Claim C9: `DynamicState.merge` is a pure total function; each field of
`merge base override` equals the override field when that field is set and the
base field otherwise, and merging with the all-unset override is the
identity. -/
theorem c9_dynamic_state_merge (b o : DynamicState) :
    ((b.merge o).viewports =
      (match o.viewports with | some v => some v | none => b.viewports)) ∧
    ((b.merge o).scissors =
      (match o.scissors with | some s => some s | none => b.scissors)) ∧
    ((b.merge o).lineWidth =
      (match o.lineWidth with | some w => some w | none => b.lineWidth)) ∧
    b.merge DynamicState.unset = b := by
  refine ⟨rfl, rfl, rfl, ?_⟩
  obtain ⟨v, s, l⟩ := b
  rfl

/-- Claim C3: a secondary-compute builder rejects every draw command with
`IllegalCommand`, in any state, and records nothing. -/
theorem c3_secondary_compute_rejects_draw (b : CommandBufferBuilder)
    (h : b.kind = .SecondaryCompute) (ds : DynamicState) (rs : List Nat) :
    b.append (Command.draw ds rs) = .error .IllegalCommand ∧
    step b (Op.append (Command.draw ds rs)) = b := by
  have hleg : commandLegal b.kind b.renderpassState (Command.draw ds rs) = false := by
    rw [h]
    cases b.renderpassState <;> rfl
  constructor
  · simp [CommandBufferBuilder.append, hleg]
  · simp [step, applyOp, CommandBufferBuilder.append, hleg]

/-- Witness for claim C3 at a concrete builder and draw command. -/
theorem c3_witness :
    (CommandBufferBuilder.new .SecondaryCompute).append
        (Command.draw DynamicState.unset [7]) = .error .IllegalCommand ∧
    step (CommandBufferBuilder.new .SecondaryCompute)
        (Op.append (Command.draw DynamicState.unset [7])) =
      CommandBufferBuilder.new .SecondaryCompute :=
  c3_secondary_compute_rejects_draw (CommandBufferBuilder.new .SecondaryCompute)
    rfl DynamicState.unset [7]

/-- Claim C4: a command buffer built from a reachable secondary-graphics or
secondary-compute builder never contains a begin-renderpass or end-renderpass
command, and both begin-renderpass operations succeed only on builders of kind
`Primary`. -/
theorem c4_secondary_renderpass_invariant :
    (∀ b, Reachable b → b.kind ≠ .Primary → ∀ cb, b.build = .ok cb →
      cb.commands.all (fun c => !c.isRenderpassBoundary) = true) ∧
    (∀ b fb cv b2, CommandBufferBuilder.beginRenderPassInline b fb cv = .ok b2 →
      b.kind = .Primary) ∧
    (∀ b fb cv b2, CommandBufferBuilder.beginRenderPassSecondary b fb cv = .ok b2 →
      b.kind = .Primary) := by
  refine ⟨?_, ?_, ?_⟩
  · intro b hr hk cb hcb
    obtain ⟨hst, hcmds⟩ := reachable_secondary_invariant b hr hk
    unfold CommandBufferBuilder.build at hcb
    rw [hst] at hcb
    cases hcb
    exact hcmds
  · intro b fb cv b2 h
    unfold CommandBufferBuilder.beginRenderPassInline at h
    split at h
    · simp at h
    · split at h
      · simp at h
      · rename_i hkind
        exact not_not.mp hkind
  · intro b fb cv b2 h
    unfold CommandBufferBuilder.beginRenderPassSecondary at h
    split at h
    · simp at h
    · split at h
      · simp at h
      · rename_i hkind
        exact not_not.mp hkind

/-- Witness for claim C4 at the freshly created secondary-graphics builder. -/
theorem c4_witness :
    ({ kind := .SecondaryGraphics, commands := [] } : CommandBuffer).commands.all
      (fun c => !c.isRenderpassBoundary) = true :=
  c4_secondary_renderpass_invariant.1 (CommandBufferBuilder.new .SecondaryGraphics)
    (Reachable.new .SecondaryGraphics) (by decide)
    { kind := .SecondaryGraphics, commands := [] } rfl

/-- Claim C5: `build()` fails with `UnterminatedRenderPass` exactly on the
builders still inside a renderpass (`InsideInline` or `InsideSecondary`), and
on a builder in state `None` it succeeds with the command buffer holding the
recorded commands. -/
theorem c5_build_renderpass_state (b : CommandBufferBuilder) :
    (b.renderpassState ≠ .None → b.build = .error .UnterminatedRenderPass) ∧
    (b.renderpassState = .None →
      b.build = .ok { kind := b.kind, commands := b.commands }) := by
  obtain ⟨k, cmds, st, si⟩ := b
  cases st <;> simp [CommandBufferBuilder.build]

/-- Witness for claim C5: a builder left inside an inline renderpass fails to
build, and a fresh primary builder builds successfully. -/
theorem c5_witness :
    ({ kind := .Primary, commands := [], renderpassState := .InsideInline,
       subpassIndex := 0 } : CommandBufferBuilder).build =
      .error .UnterminatedRenderPass ∧
    (CommandBufferBuilder.new .Primary).build =
      .ok { kind := .Primary, commands := [] } :=
  ⟨(c5_build_renderpass_state _).1 (by decide), (c5_build_renderpass_state _).2 rfl⟩

/-- Claim C6: both begin-renderpass operations fail with `AlreadyInRenderPass`
whenever the renderpass state is not `None`; in particular, after a successful
`beginRenderPassInline`, a `beginRenderPassSecondary` with no intervening
`endRenderPass` fails with `AlreadyInRenderPass`. -/
theorem c6_begin_renderpass_already_in (b : CommandBufferBuilder) :
    (∀ fb cv, b.renderpassState ≠ .None →
      b.beginRenderPassInline fb cv = .error .AlreadyInRenderPass ∧
      b.beginRenderPassSecondary fb cv = .error .AlreadyInRenderPass) ∧
    (∀ fb cv fb2 cv2 b2, b.beginRenderPassInline fb cv = .ok b2 →
      b2.beginRenderPassSecondary fb2 cv2 = .error .AlreadyInRenderPass) := by
  constructor
  · intro fb cv h
    constructor <;>
      simp [CommandBufferBuilder.beginRenderPassInline,
        CommandBufferBuilder.beginRenderPassSecondary, h]
  · intro fb cv fb2 cv2 b2 h
    have hst : b2.renderpassState = .InsideInline := by
      unfold CommandBufferBuilder.beginRenderPassInline at h
      split at h
      · simp at h
      · split at h
        · simp at h
        · cases h
          rfl
    simp [CommandBufferBuilder.beginRenderPassSecondary, hst]

/-- Witness for claim C6: the builder obtained from a fresh primary builder by
`beginRenderPassInline` rejects `beginRenderPassSecondary`. -/
theorem c6_witness :
    ({ kind := .Primary, commands := [RecordedCommand.beginRenderPass 1 [2] false],
       renderpassState := .InsideInline, subpassIndex := 0 } :
      CommandBufferBuilder).beginRenderPassSecondary 3 [4] =
      .error .AlreadyInRenderPass :=
  (c6_begin_renderpass_already_in (CommandBufferBuilder.new .Primary)).2 1 [2] 3 [4]
    { kind := .Primary, commands := [RecordedCommand.beginRenderPass 1 [2] false],
      renderpassState := .InsideInline, subpassIndex := 0 } rfl

/-- Claim C7: atomicity on error — an operation that fails with any
`BuildError` leaves the recorded command sequence, the kind, the renderpass
state and the subpass index unchanged, and a failed `build()` produces no
command buffer. -/
theorem c7_errors_leave_builder_unchanged :
    (∀ b op e, applyOp b op = .error e →
      (step b op).commands = b.commands ∧ (step b op).kind = b.kind ∧
      (step b op).renderpassState = b.renderpassState ∧
      (step b op).subpassIndex = b.subpassIndex) ∧
    (∀ b e, CommandBufferBuilder.build b = .error e →
      ∀ cb, ¬(CommandBufferBuilder.build b = .ok cb)) := by
  constructor
  · intro b op e h
    have hs : step b op = b := by
      unfold step
      rw [h]
    rw [hs]
    exact ⟨rfl, rfl, rfl, rfl⟩
  · intro b e h cb hc
    rw [h] at hc
    exact Except.noConfusion hc

/-- Witness for claim C7: a `nextSubpassSecondary` that fails with
`ModeMismatch` leaves the fresh primary builder unchanged, and the failing
`build()` of a builder inside a renderpass returns no command buffer. -/
theorem c7_witness :
    ((step (CommandBufferBuilder.new .Primary) Op.nextSubpassSecondary).commands =
        (CommandBufferBuilder.new .Primary).commands) ∧
    ¬(({ kind := .Primary, commands := [], renderpassState := .InsideInline,
         subpassIndex := 0 } : CommandBufferBuilder).build =
      .ok { kind := .Primary, commands := [] }) :=
  ⟨(c7_errors_leave_builder_unchanged.1 (CommandBufferBuilder.new .Primary)
      Op.nextSubpassSecondary .ModeMismatch rfl).1,
   c7_errors_leave_builder_unchanged.2
      { kind := .Primary, commands := [], renderpassState := .InsideInline,
        subpassIndex := 0 } .UnterminatedRenderPass rfl
      { kind := .Primary, commands := [] }⟩

/-- Claim C8: determinism — running one sequence of valid operations on two
independently created builders of the same kind and building each yields
command buffers with identical command counts and identical referenced
resources. -/
theorem c8_determinism (k : BuilderKind) (ops : List Op) (cb1 cb2 : CommandBuffer)
    (_hv : opsValid (CommandBufferBuilder.new k) ops = true)
    (h1 : (runOps (CommandBufferBuilder.new k) ops).build = .ok cb1)
    (h2 : (runOps (CommandBufferBuilder.new k) ops).build = .ok cb2) :
    cb1.commandCount = cb2.commandCount ∧ cb1.resourceRefs = cb2.resourceRefs := by
  have h : cb1 = cb2 := Except.ok.inj (h1.symm.trans h2)
  rw [h]
  exact ⟨rfl, rfl⟩

/-- Witness for claim C8 on a concrete valid sequence: begin an inline
renderpass, record one draw, end the renderpass. -/
theorem c8_witness :
    opsValid (CommandBufferBuilder.new .Primary)
      [Op.beginRenderPassInline 1 [], Op.append (Command.draw DynamicState.unset [5]),
       Op.endRenderPass] = true ∧
    (({ kind := .Primary,
         commands := [RecordedCommand.beginRenderPass 1 [] false,
           RecordedCommand.cmd (Command.draw DynamicState.unset [5]),
           RecordedCommand.endRenderPass] } : CommandBuffer).commandCount =
      ({ kind := .Primary,
          commands := [RecordedCommand.beginRenderPass 1 [] false,
            RecordedCommand.cmd (Command.draw DynamicState.unset [5]),
            RecordedCommand.endRenderPass] } : CommandBuffer).commandCount ∧
     ({ kind := .Primary,
         commands := [RecordedCommand.beginRenderPass 1 [] false,
           RecordedCommand.cmd (Command.draw DynamicState.unset [5]),
           RecordedCommand.endRenderPass] } : CommandBuffer).resourceRefs =
      ({ kind := .Primary,
          commands := [RecordedCommand.beginRenderPass 1 [] false,
            RecordedCommand.cmd (Command.draw DynamicState.unset [5]),
            RecordedCommand.endRenderPass] } : CommandBuffer).resourceRefs) :=
  ⟨rfl,
   c8_determinism .Primary
     [Op.beginRenderPassInline 1 [], Op.append (Command.draw DynamicState.unset [5]),
      Op.endRenderPass]
     { kind := .Primary,
       commands := [RecordedCommand.beginRenderPass 1 [] false,
         RecordedCommand.cmd (Command.draw DynamicState.unset [5]),
         RecordedCommand.endRenderPass] }
     { kind := .Primary,
       commands := [RecordedCommand.beginRenderPass 1 [] false,
         RecordedCommand.cmd (Command.draw DynamicState.unset [5]),
         RecordedCommand.endRenderPass] }
     rfl rfl rfl⟩
